import Mathlib

/-!
Verification of the repository-migration orchestrator (pweimann/repository-migration).

The repository contains three near-duplicate variants of the `RepositoryMigrator`
class:

* `src/migrate-repos.js` (abbreviated MR below): has a hard-coded
  `stopOnFailure = true` field; its `transferRepository` throws after recording a
  live failure, and its `migrateFromOrganizations` additionally throws when a
  transfer reports failure in a live run.  It has no `generateReport`.
* `src/unnamed/part_000` (abbreviated P0): has no `stopOnFailure` field (so the
  throw guard of the other variants, which reads `this.stopOnFailure`, would see
  a falsy value); its `transferRepository` never throws; it has `validateSetup`,
  `migrateFromFile` and `generateReport`; its `run` catch handler exits with
  status 1 WITHOUT calling `generateReport`.
* the second script embedded in `src/export-users.js` (abbreviated EU): same
  `transferRepository` and `migrateFromOrganizations` as MR, with `validateSetup`
  and `generateReport`; its `run` catch handler DOES call `generateReport` before
  exiting with status 1.

The embedding below models the mutable `this` of the class as an explicit
`MigratorState` value threaded through each method; the remote GitHub API is an
oracle (`Remote`, `ValidationRemote`); JavaScript exceptions become explicit
`Except`/`Option` results; `process.exit(1)` becomes `exitCode = 1`.  Console
logging and timestamps are omitted (they never affect control flow) and the
one-second inter-transfer delay is not modelled (no real time).  The number of
issued `POST /repos/:owner/:repo/transfer` requests is instrumented as the
`transferCalls` counter, which also indexes the transfer oracle so that repeated
transfers of the same repository may have different remote results.
-/

/-- A repository record as consumed by the migrator: GitHub list entries and
file entries both expose `name`, and file entries additionally expose `url` and
`sshUrl` (modelled as empty strings when absent). -/
structure Repo where
  name : String
  url : String := ""
  sshUrl : String := ""
deriving DecidableEq, Repr

/-- One entry of the `results.successful` / `results.failed` buckets, mirroring
the three distinct push sites of `transferRepository` (timestamps omitted):
dry-run success pushes `\x7brepo, target, dryRun: true\x7d`; live success pushes
`\x7brepo, target, response\x7d`; live failure pushes `\x7brepo, error, status\x7d`. -/
inductive TransferOutcome where
  | dryRunSuccess (repo target : String)
  | liveSuccess (repo target : String) (status : Nat)
  | liveFailure (repo error : String) (status : Nat)
deriving DecidableEq, Repr

/-- The `repo` field of an outcome entry: the repository identity
`sourceOrg/name` recorded at every push site. -/
def TransferOutcome.repoOf : TransferOutcome → String
  | .dryRunSuccess r _ => r
  | .liveSuccess r _ _ => r
  | .liveFailure r _ _ => r

/-- Whether an outcome entry is a dry-run success, i.e. carries `dryRun = true`. -/
def TransferOutcome.isDry : TransferOutcome → Bool
  | .dryRunSuccess _ _ => true
  | _ => false

/-- The `this.results` buckets of the migrator. -/
structure Results where
  successful : List TransferOutcome
  failed : List TransferOutcome
  skipped : List TransferOutcome
deriving DecidableEq, Repr

/-- The mutable state of a `RepositoryMigrator` instance: configuration fields
set by the constructor plus the accumulating result buckets.  `transferCalls`
instruments the number of remote transfer requests issued so far (the
`octokit.request` on `POST .../transfer`); it is 0 at construction. -/
structure MigratorState where
  targetOrg : String
  sourceOrgs : List String
  dryRun : Bool
  stopOnFailure : Bool
  results : Results
  transferCalls : Nat
deriving DecidableEq, Repr

/-- The constructor state (`constructor`, all variants): empty buckets, zero
transfer requests issued.  MR and EU set `stopOnFailure = true`; P0 has no such
field, which the throw guard reads as falsy, so P0 instantiates it with
`false`. -/
def initState (targetOrg : String) (sourceOrgs : List String)
    (dryRun stopOnFailure : Bool) : MigratorState :=
  { targetOrg := targetOrg
  , sourceOrgs := sourceOrgs
  , dryRun := dryRun
  , stopOnFailure := stopOnFailure
  , results := { successful := [], failed := [], skipped := [] }
  , transferCalls := 0 }

/-- Oracle for the remote GitHub API during migration.  `listResult org` is the
outcome of `GET /orgs/:org/repos` (`error` = the request threw).
`transferResult k` is the outcome of the k-th issued transfer request: `ok`
carries the response status, `error` carries the error message and status. -/
structure Remote where
  listResult : String → Except String (List Repo)
  transferResult : Nat → Except (String × Nat) Nat

/-- Decidable success test for a transfer-oracle answer. -/
def exOk (e : Except (String × Nat) Nat) : Bool :=
  match e with
  | Except.ok _ => true
  | Except.error _ => false

/-- Helper: append one entry to the successful bucket. -/
def pushSuccessful (st : MigratorState) (o : TransferOutcome) : MigratorState :=
  { st with results := { st.results with successful := st.results.successful ++ [o] } }

/-- Helper: append one entry to the failed bucket. -/
def pushFailed (st : MigratorState) (o : TransferOutcome) : MigratorState :=
  { st with results := { st.results with failed := st.results.failed ++ [o] } }

/-- `transferRepository(repo, sourceOrg)` of the MR and EU variants
(migrate-repos.js lines 54-102; the identical export-users.js lines 97-145).
Dry run: push a successful entry with `dryRun: true`, return `\x7bsuccess: true\x7d`,
no remote request.  Live: issue the transfer request (counted, consuming the
next oracle answer); on success push to successful and return
`\x7bsuccess: true\x7d`; on failure push to failed and then, when
`!dryRun && stopOnFailure`, throw (modelled as `Except.error`), else return
`\x7bsuccess: false\x7d`. -/
def transferRepositoryMR (remote : Remote) (st : MigratorState) (repo : Repo)
    (sourceOrg : String) : MigratorState × Except String Bool :=
  let repoName := repo.name
  let repoFullName := sourceOrg ++ "/" ++ repoName
  if st.dryRun then
    (pushSuccessful st (TransferOutcome.dryRunSuccess repoFullName
        (st.targetOrg ++ "/" ++ repoName)), Except.ok true)
  else
    let call := st.transferCalls
    let st1 : MigratorState := { st with transferCalls := call + 1 }
    match remote.transferResult call with
    | Except.ok status =>
        (pushSuccessful st1 (TransferOutcome.liveSuccess repoFullName
            (st.targetOrg ++ "/" ++ repoName) status), Except.ok true)
    | Except.error es =>
        let st2 := pushFailed st1 (TransferOutcome.liveFailure repoFullName es.1 es.2)
        if !st2.dryRun && st2.stopOnFailure then
          (st2, Except.error ("Migration failed for " ++ repoFullName ++ ": " ++ es.1))
        else
          (st2, Except.ok false)

/-- `transferRepository(repo, sourceOrg)` of the P0 variant
(src/unnamed/part_000 lines 65-112): identical to the MR variant except that
the catch branch has no `stopOnFailure` throw — it always returns
`\x7bsuccess: false\x7d` after recording the failure. -/
def transferRepositoryP0 (remote : Remote) (st : MigratorState) (repo : Repo)
    (sourceOrg : String) : MigratorState × Except String Bool :=
  let repoName := repo.name
  let repoFullName := sourceOrg ++ "/" ++ repoName
  if st.dryRun then
    (pushSuccessful st (TransferOutcome.dryRunSuccess repoFullName
        (st.targetOrg ++ "/" ++ repoName)), Except.ok true)
  else
    let call := st.transferCalls
    let st1 : MigratorState := { st with transferCalls := call + 1 }
    match remote.transferResult call with
    | Except.ok status =>
        (pushSuccessful st1 (TransferOutcome.liveSuccess repoFullName
            (st.targetOrg ++ "/" ++ repoName) status), Except.ok true)
    | Except.error es =>
        (pushFailed st1 (TransferOutcome.liveFailure repoFullName es.1 es.2),
          Except.ok false)

/-- `listRepositories(org)` (all variants; src/unnamed/part_000 lines 41-60):
returns the listing on success and the empty list when the query throws (the
catch branch logs and returns `[]`). -/
def listRepositories (remote : Remote) (org : String) : List Repo :=
  match remote.listResult org with
  | Except.ok repos => repos
  | Except.error _ => []

/-- The inner `for (const repo of repos)` loop of the P0 variant's
`migrateFromOrganizations` (src/unnamed/part_000 lines 192-197): transfer each
repository in order; nothing can throw. -/
def migrateReposP0 (remote : Remote) (org : String) :
    MigratorState → List Repo → MigratorState
  | st, [] => st
  | st, repo :: rest =>
      migrateReposP0 remote org (transferRepositoryP0 remote st repo org).1 rest

/-- `migrateFromOrganizations(sourceOrgs)` of the P0 variant
(src/unnamed/part_000 lines 186-199): for each organization in order, list its
repositories (empty on listing failure) and transfer each one. -/
def migrateFromOrganizationsP0 (remote : Remote) :
    MigratorState → List String → MigratorState
  | st, [] => st
  | st, org :: rest =>
      migrateFromOrganizationsP0 remote
        (migrateReposP0 remote org st (listRepositories remote org)) rest

/-- The inner loop of `migrateFromOrganizations` of the MR and EU variants
(migrate-repos.js lines 109-118, export-users.js lines 190-199): transfer each
repository; an exception thrown by `transferRepository` propagates, and
additionally `if (!result.success && !this.dryRun) throw` aborts the loop.
`some e` models the thrown exception. -/
def migrateReposMR (remote : Remote) (org : String) :
    MigratorState → List Repo → MigratorState × Option String
  | st, [] => (st, none)
  | st, repo :: rest =>
      match transferRepositoryMR remote st repo org with
      | (st1, Except.error e) => (st1, some e)
      | (st1, Except.ok ok) =>
          if !ok && !st1.dryRun then (st1, some ("Migration stopped due to failure"))
          else migrateReposMR remote org st1 rest

/-- `migrateFromOrganizations(sourceOrgs)` of the MR and EU variants
(migrate-repos.js lines 104-120): sequence the organizations in order,
propagating a thrown exception. -/
def migrateFromOrganizationsMR (remote : Remote) :
    MigratorState → List String → MigratorState × Option String
  | st, [] => (st, none)
  | st, org :: rest =>
      match migrateReposMR remote org st (listRepositories remote org) with
      | (st1, some e) => (st1, some e)
      | (st1, none) => migrateFromOrganizationsMR remote st1 rest

/-- Search for the first start position from which `marker` occurs immediately
followed by a non-empty run of characters other than the slash and then a
slash; return that run.  This embeds the regular expressions used by
`migrateFromFile` (src/unnamed/part_000 lines 164-165), whose pattern is the
literal marker, then one or more characters other than a slash (captured), then
a slash, searched left to right. -/
def matchOwner (marker : List Char) : List Char → Option (List Char)
  | [] => none
  | c :: cs =>
      if marker.isPrefixOf (c :: cs) then
        let rest := (c :: cs).drop marker.length
        let seg := rest.takeWhile (fun ch => ch ≠ '/')
        if seg ≠ [] ∧ seg.length < rest.length then some seg
        else matchOwner marker cs
      else matchOwner marker cs

/-- The `const orgMatch = repo.url.match(...) || repo.sshUrl.match(...)` step of
`migrateFromFile`: try the https pattern on `url`, then the ssh pattern on
`sshUrl`. -/
def extractOwner (url sshUrl : String) : Option String :=
  match matchOwner ("github.com/".data) url.data with
  | some seg => some (String.mk seg)
  | none => Option.map (fun seg => String.mk seg) (matchOwner ("github.com:".data) sshUrl.data)

/-- `migrateFromFile(filePath)` of the P0 variant (src/unnamed/part_000 lines
157-181), given the parsed file contents: per entry, derive the source
organization from the URL; entries with no extractable owner are skipped with a
warning (`continue`) and recorded nowhere; the rest are transferred with the
never-throwing P0 `transferRepository`.  The surrounding try/catch only absorbs
file-read and parse errors, which are modelled by the caller passing no
contents. -/
def migrateFromFile (remote : Remote) : MigratorState → List Repo → MigratorState
  | st, [] => st
  | st, repo :: rest =>
      match extractOwner repo.url repo.sshUrl with
      | none => migrateFromFile remote st rest
      | some sourceOrg =>
          migrateFromFile remote (transferRepositoryP0 remote st repo sourceOrg).1 rest

/-- A JavaScript number as it appears in the summary: either an exact rational
value or NaN.  The source computes `successful / (successful + failed) * 100`
on IEEE doubles; the only reachable non-finite case is `0 / 0 = NaN` (when the
denominator is 0 the numerator is necessarily 0).  Finite values are modelled
in exact rational arithmetic. -/
inductive JsNum where
  | num (q : ℚ)
  | nan
deriving DecidableEq, Repr

/-- The `successRate` expression of `generateReport` (src/unnamed/part_000 line
210, export-users.js line 212): `successful / (successful + failed) * 100`,
with the JavaScript result NaN when the denominator is zero. -/
def successRateCalc (s f : Nat) : JsNum :=
  if s + f = 0 then JsNum.nan
  else JsNum.num ((s : ℚ) / ((s : ℚ) + (f : ℚ)) * 100)

/-- The summary object written by `generateReport` (timestamp omitted). -/
structure Summary where
  total : Nat
  successful : Nat
  failed : Nat
  skipped : Nat
  successRate : JsNum
  dryRun : Bool
deriving DecidableEq, Repr

/-- `generateReport()` (src/unnamed/part_000 lines 204-231, export-users.js
lines 206-229): derives the summary from the buckets and persists the full
results; the derived summary value is returned here, its computation being the
persistence event. -/
def generateReport (st : MigratorState) : Summary :=
  { total := st.results.successful.length + st.results.failed.length
      + st.results.skipped.length
  , successful := st.results.successful.length
  , failed := st.results.failed.length
  , skipped := st.results.skipped.length
  , successRate := successRateCalc st.results.successful.length st.results.failed.length
  , dryRun := st.dryRun }

/-- Oracle for the remote calls made by `validateSetup`: `authUser` is
`GET /user` (ok carries the login), `orgLookup` is `GET /orgs/:targetOrg`,
`membershipRole` is `GET /orgs/:org/memberships/:username` (ok carries the
role string). -/
structure ValidationRemote where
  authUser : Except String String
  orgLookup : Except String Unit
  membershipRole : Except String String

/-- `validateSetup()` (src/unnamed/part_000 lines 117-152; behaviourally
identical export-users.js lines 150-180, which merely drops the log lines).
Authentication failure and target-organization lookup failure re-throw as
fatal errors.  The permission block queries `GET /user` again and the
membership role inside one try; any error there — including the internally
thrown insufficient-permissions error — is caught and downgraded to a warning
(`ok (some warning)`), and validation succeeds.  The quotes around the
organization name in the source's lookup-failure message are omitted. -/
def validateSetup (targetOrg : String) (vr : ValidationRemote) :
    Except String (Option String) :=
  match vr.authUser with
  | Except.error e => Except.error ("Authentication failed: " ++ e)
  | Except.ok _ =>
      match vr.orgLookup with
      | Except.error _ =>
          Except.error ("Target organization " ++ targetOrg ++ " not found or no access")
      | Except.ok _ =>
          let permBlock : Except String Unit :=
            match vr.authUser with
            | Except.error e => Except.error e
            | Except.ok _ =>
                match vr.membershipRole with
                | Except.error e => Except.error e
                | Except.ok role =>
                    if role = "admin" ∨ role = "owner" then Except.ok ()
                    else Except.error ("Insufficient permissions for target org. Need admin/owner, have: " ++ role)
          match permBlock with
          | Except.ok _ => Except.ok none
          | Except.error e =>
              Except.ok (some ("Could not verify permissions for target org: " ++ e))

/-- Observable outcome of a `run()` invocation: the final migrator state, the
summary if `generateReport` ran (`none` means no report was computed or
persisted), and the process exit status. -/
structure RunResult where
  finalState : MigratorState
  report : Option Summary
  exitCode : Nat
deriving DecidableEq, Repr

/-- `run()` of the P0 variant (src/unnamed/part_000 lines 236-260).
`fileRepos` is the parsed contents of `test-repos.json` when that file exists.
The try body runs `validateSetup`, then migrates from the file or from the
source organizations (throwing when neither is available), then calls
`generateReport`.  The catch handler logs and exits with status 1 — it does
NOT call `generateReport`. -/
def runP0 (remote : Remote) (vr : ValidationRemote) (st : MigratorState)
    (fileRepos : Option (List Repo)) : RunResult :=
  match validateSetup st.targetOrg vr with
  | Except.error _ => { finalState := st, report := none, exitCode := 1 }
  | Except.ok _ =>
      match fileRepos with
      | some repos =>
          let st1 := migrateFromFile remote st repos
          { finalState := st1, report := some (generateReport st1), exitCode := 0 }
      | none =>
          if 0 < st.sourceOrgs.length then
            let st1 := migrateFromOrganizationsP0 remote st st.sourceOrgs
            { finalState := st1, report := some (generateReport st1), exitCode := 0 }
          else
            { finalState := st, report := none, exitCode := 1 }

/-- `run()` of the EU variant (export-users.js lines 234-258).  The try body
runs `validateSetup`, migrates from the source organizations (throwing when
none are configured), then calls `generateReport`.  The catch handler calls
`generateReport` and exits with status 1, so every fatal path still finalizes
and persists the report. -/
def runEU (remote : Remote) (vr : ValidationRemote) (st : MigratorState) : RunResult :=
  match validateSetup st.targetOrg vr with
  | Except.error _ =>
      { finalState := st, report := some (generateReport st), exitCode := 1 }
  | Except.ok _ =>
      if 0 < st.sourceOrgs.length then
        match migrateFromOrganizationsMR remote st st.sourceOrgs with
        | (st1, none) =>
            { finalState := st1, report := some (generateReport st1), exitCode := 0 }
        | (st1, some _) =>
            { finalState := st1, report := some (generateReport st1), exitCode := 1 }
      else
        { finalState := st, report := some (generateReport st), exitCode := 1 }

/-- The flattened discovery order of a run: source organizations in configured
order, repositories of each organization in listing order (an organization
whose listing fails contributes nothing, per `listRepositories`). -/
def flatRepos (remote : Remote) : List String → List (String × Repo)
  | [] => []
  | org :: rest =>
      (listRepositories remote org).map (fun r => (org, r)) ++ flatRepos remote rest

/-- The repository identity `sourceOrg/name` of a discovered pair. -/
def flatName (p : String × Repo) : String :=
  p.1 ++ "/" ++ p.2.name

/-- Processing of an explicit flattened discovery list by the P0 scheduler
loop; proved below to agree with `migrateFromOrganizationsP0` on
`flatRepos`. -/
def processFlatP0 (remote : Remote) :
    MigratorState → List (String × Repo) → MigratorState
  | st, [] => st
  | st, p :: rest =>
      processFlatP0 remote (transferRepositoryP0 remote st p.2 p.1).1 rest

/-- Processing of an explicit flattened discovery list by the MR scheduler
loop; proved below to agree with `migrateFromOrganizationsMR` on
`flatRepos`. -/
def processFlatMR (remote : Remote) :
    MigratorState → List (String × Repo) → MigratorState × Option String
  | st, [] => (st, none)
  | st, p :: rest =>
      match transferRepositoryMR remote st p.2 p.1 with
      | (st1, Except.error e) => (st1, some e)
      | (st1, Except.ok ok) =>
          if !ok && !st1.dryRun then (st1, some ("Migration stopped due to failure"))
          else processFlatMR remote st1 rest

/-- The successful entries a dry run appends for a flattened discovery list. -/
def dryEntries (targetOrg : String) (pairs : List (String × Repo)) : List TransferOutcome :=
  pairs.map (fun p => TransferOutcome.dryRunSuccess (flatName p) (targetOrg ++ "/" ++ p.2.name))

/-- The response status of the k-th transfer request (junk 0 when that request
fails; used only under a success hypothesis). -/
def statusAt (remote : Remote) (k : Nat) : Nat :=
  match remote.transferResult k with
  | Except.ok s => s
  | Except.error _ => 0

/-- The successful entries a live run appends for a flattened discovery list
whose transfers all succeed, when the first of them is the k-th transfer
request issued. -/
def succList (remote : Remote) (targetOrg : String) : Nat → List (String × Repo) → List TransferOutcome
  | _, [] => []
  | k, p :: rest =>
      TransferOutcome.liveSuccess (flatName p) (targetOrg ++ "/" ++ p.2.name)
          (statusAt remote k)
        :: succList remote targetOrg (k + 1) rest

theorem pushSuccessful_results (st : MigratorState) (o : TransferOutcome) :
    (pushSuccessful st o).results.successful = st.results.successful ++ [o]
      ∧ (pushSuccessful st o).results.failed = st.results.failed
      ∧ (pushSuccessful st o).results.skipped = st.results.skipped := by
  refine ⟨rfl, rfl, rfl⟩

theorem pushFailed_results (st : MigratorState) (o : TransferOutcome) :
    (pushFailed st o).results.failed = st.results.failed ++ [o]
      ∧ (pushFailed st o).results.successful = st.results.successful
      ∧ (pushFailed st o).results.skipped = st.results.skipped := by
  refine ⟨rfl, rfl, rfl⟩

theorem transferP0_dry (remote : Remote) (st : MigratorState) (repo : Repo)
    (org : String) (h : st.dryRun = true) :
    transferRepositoryP0 remote st repo org =
      (pushSuccessful st (TransferOutcome.dryRunSuccess (org ++ "/" ++ repo.name)
        (st.targetOrg ++ "/" ++ repo.name)), Except.ok true) := by
  simp [transferRepositoryP0, h]

theorem transferMR_dry (remote : Remote) (st : MigratorState) (repo : Repo)
    (org : String) (h : st.dryRun = true) :
    transferRepositoryMR remote st repo org =
      (pushSuccessful st (TransferOutcome.dryRunSuccess (org ++ "/" ++ repo.name)
        (st.targetOrg ++ "/" ++ repo.name)), Except.ok true) := by
  simp [transferRepositoryMR, h]

theorem migrateReposP0_eq_processFlat (remote : Remote) (org : String) :
    ∀ (repos : List Repo) (st : MigratorState),
      migrateReposP0 remote org st repos =
        processFlatP0 remote st (repos.map (fun r => (org, r)))
  | [], _ => rfl
  | _ :: rest, st => by
      simp only [migrateReposP0, List.map_cons, processFlatP0]
      exact migrateReposP0_eq_processFlat remote org rest _

theorem processFlatP0_append (remote : Remote) :
    ∀ (a b : List (String × Repo)) (st : MigratorState),
      processFlatP0 remote st (a ++ b) =
        processFlatP0 remote (processFlatP0 remote st a) b
  | [], _, _ => rfl
  | _ :: arest, b, st => by
      simp only [List.cons_append, processFlatP0]
      exact processFlatP0_append remote arest b _

theorem migrateP0_eq_processFlat (remote : Remote) :
    ∀ (orgs : List String) (st : MigratorState),
      migrateFromOrganizationsP0 remote st orgs =
        processFlatP0 remote st (flatRepos remote orgs)
  | [], _ => rfl
  | org :: rest, st => by
      simp only [migrateFromOrganizationsP0, flatRepos, processFlatP0_append,
        migrateReposP0_eq_processFlat]
      exact migrateP0_eq_processFlat remote rest _

theorem migrateReposMR_eq_processFlat (remote : Remote) (org : String) :
    ∀ (repos : List Repo) (st : MigratorState),
      migrateReposMR remote org st repos =
        processFlatMR remote st (repos.map (fun r => (org, r)))
  | [], _ => rfl
  | repo :: rest, st => by
      simp only [migrateReposMR, List.map_cons, processFlatMR]
      cases transferRepositoryMR remote st repo org with
  | mk st1 r =>
      cases r with
      | error e => rfl
      | ok ok =>
          simp only []
          by_cases hc : (!ok && !st1.dryRun) = true
          · simp [hc]
          · simp [hc, migrateReposMR_eq_processFlat remote org rest]

theorem processFlatMR_append (remote : Remote) :
    ∀ (a b : List (String × Repo)) (st : MigratorState),
      processFlatMR remote st (a ++ b) =
        match processFlatMR remote st a with
        | (st1, none) => processFlatMR remote st1 b
        | (st1, some e) => (st1, some e)
  | [], _, _ => rfl
  | p :: arest, b, st => by
      simp only [List.cons_append, processFlatMR]
      cases transferRepositoryMR remote st p.2 p.1 with
  | mk st1 r =>
      cases r with
      | error e => rfl
      | ok ok =>
          simp only []
          by_cases hc : (!ok && !st1.dryRun) = true
          · simp [hc]
          · simp [hc, processFlatMR_append remote arest b]

theorem migrateMR_eq_processFlat (remote : Remote) :
    ∀ (orgs : List String) (st : MigratorState),
      migrateFromOrganizationsMR remote st orgs =
        processFlatMR remote st (flatRepos remote orgs)
  | [], _ => rfl
  | org :: rest, st => by
      simp only [migrateFromOrganizationsMR, flatRepos, processFlatMR_append,
        migrateReposMR_eq_processFlat]
      cases processFlatMR remote st ((listRepositories remote org).map (fun r => (org, r))) with
  | mk st1 r =>
      cases r with
      | some e => rfl
      | none => exact migrateMR_eq_processFlat remote rest st1

theorem dryEntries_append (targetOrg : String) (a b : List (String × Repo)) :
    dryEntries targetOrg (a ++ b) = dryEntries targetOrg a ++ dryEntries targetOrg b := by
  simp [dryEntries]

theorem processFlatP0_dry (remote : Remote) :
    ∀ (pairs : List (String × Repo)) (st : MigratorState), st.dryRun = true →
      processFlatP0 remote st pairs =
        { st with results := { st.results with
            successful := st.results.successful ++ dryEntries st.targetOrg pairs } }
  | [], st, _ => by simp [processFlatP0, dryEntries]
  | p :: rest, st, h => by
      have step : processFlatP0 remote st (p :: rest) =
          processFlatP0 remote
            (pushSuccessful st (TransferOutcome.dryRunSuccess (p.1 ++ "/" ++ p.2.name)
              (st.targetOrg ++ "/" ++ p.2.name))) rest := by
        rw [processFlatP0, transferP0_dry remote st p.2 p.1 h]
      rw [step, processFlatP0_dry remote rest
        (pushSuccessful st (TransferOutcome.dryRunSuccess (p.1 ++ "/" ++ p.2.name)
          (st.targetOrg ++ "/" ++ p.2.name))) h]
      simp [pushSuccessful, dryEntries, flatName]

theorem processFlatMR_dry (remote : Remote) :
    ∀ (pairs : List (String × Repo)) (st : MigratorState), st.dryRun = true →
      processFlatMR remote st pairs =
        ({ st with results := { st.results with
            successful := st.results.successful ++ dryEntries st.targetOrg pairs } }, none)
  | [], st, _ => by simp [processFlatMR, dryEntries]
  | p :: rest, st, h => by
      have step : processFlatMR remote st (p :: rest) =
          processFlatMR remote
            (pushSuccessful st (TransferOutcome.dryRunSuccess (p.1 ++ "/" ++ p.2.name)
              (st.targetOrg ++ "/" ++ p.2.name))) rest := by
        rw [processFlatMR, transferMR_dry remote st p.2 p.1 h]
        rfl
      rw [step, processFlatMR_dry remote rest
        (pushSuccessful st (TransferOutcome.dryRunSuccess (p.1 ++ "/" ++ p.2.name)
          (st.targetOrg ++ "/" ++ p.2.name))) h]
      simp [pushSuccessful, dryEntries, flatName]

theorem transferMR_liveOk (remote : Remote) (st : MigratorState) (repo : Repo)
    (org : String) (c : Nat) (h : st.dryRun = false)
    (hc : remote.transferResult st.transferCalls = Except.ok c) :
    transferRepositoryMR remote st repo org =
      (pushSuccessful { st with transferCalls := st.transferCalls + 1 }
        (TransferOutcome.liveSuccess (org ++ "/" ++ repo.name)
          (st.targetOrg ++ "/" ++ repo.name) c), Except.ok true) := by
  simp [transferRepositoryMR, h, hc]

theorem transferMR_liveFail (remote : Remote) (st : MigratorState) (repo : Repo)
    (org : String) (es : String × Nat) (h : st.dryRun = false)
    (hs : st.stopOnFailure = true)
    (hc : remote.transferResult st.transferCalls = Except.error es) :
    transferRepositoryMR remote st repo org =
      (pushFailed { st with transferCalls := st.transferCalls + 1 }
        (TransferOutcome.liveFailure (org ++ "/" ++ repo.name) es.1 es.2),
        Except.error ("Migration failed for " ++ (org ++ "/" ++ repo.name) ++ ": " ++ es.1)) := by
  simp [transferRepositoryMR, pushFailed, h, hs, hc]

theorem transferP0_liveOk (remote : Remote) (st : MigratorState) (repo : Repo)
    (org : String) (c : Nat) (h : st.dryRun = false)
    (hc : remote.transferResult st.transferCalls = Except.ok c) :
    transferRepositoryP0 remote st repo org =
      (pushSuccessful { st with transferCalls := st.transferCalls + 1 }
        (TransferOutcome.liveSuccess (org ++ "/" ++ repo.name)
          (st.targetOrg ++ "/" ++ repo.name) c), Except.ok true) := by
  simp [transferRepositoryP0, h, hc]

theorem transferP0_liveFail (remote : Remote) (st : MigratorState) (repo : Repo)
    (org : String) (es : String × Nat) (h : st.dryRun = false)
    (hc : remote.transferResult st.transferCalls = Except.error es) :
    transferRepositoryP0 remote st repo org =
      (pushFailed { st with transferCalls := st.transferCalls + 1 }
        (TransferOutcome.liveFailure (org ++ "/" ++ repo.name) es.1 es.2),
        Except.ok false) := by
  simp [transferRepositoryP0, h, hc]

theorem succList_length (remote : Remote) (t : String) :
    ∀ (k : Nat) (pairs : List (String × Repo)),
      (succList remote t k pairs).length = pairs.length
  | _, [] => rfl
  | k, _ :: rest => by
      simp [succList, succList_length remote t (k + 1) rest]

theorem succList_map_repoOf (remote : Remote) (t : String) :
    ∀ (k : Nat) (pairs : List (String × Repo)),
      (succList remote t k pairs).map TransferOutcome.repoOf = pairs.map flatName
  | _, [] => rfl
  | k, _ :: rest => by
      simp [succList, TransferOutcome.repoOf, succList_map_repoOf remote t (k + 1) rest]

theorem dryEntries_map_repoOf (t : String) (pairs : List (String × Repo)) :
    (dryEntries t pairs).map TransferOutcome.repoOf = pairs.map flatName := by
  simp [dryEntries, TransferOutcome.repoOf]

theorem dryEntries_all_isDry (t : String) (pairs : List (String × Repo)) :
    ∀ o, o ∈ dryEntries t pairs → o.isDry = true := by
  intro o ho
  simp only [dryEntries, List.mem_map] at ho
  obtain ⟨p, _, rfl⟩ := ho
  rfl

theorem exOk_ok (e : Except (String × Nat) Nat) (h : exOk e = true) :
    ∃ c, e = Except.ok c := by
  cases e with
  | ok c => exact ⟨c, rfl⟩
  | error es => simp [exOk] at h

theorem processFlatMR_liveOk (remote : Remote) :
    ∀ (pairs : List (String × Repo)) (st : MigratorState), st.dryRun = false →
      (∀ i, i < pairs.length → exOk (remote.transferResult (st.transferCalls + i)) = true) →
      processFlatMR remote st pairs =
        ({ st with
            results := { st.results with
              successful :=
                st.results.successful ++ succList remote st.targetOrg st.transferCalls pairs }
          , transferCalls := st.transferCalls + pairs.length }, none)
  | [], st, _, _ => by simp [processFlatMR, succList]
  | p :: rest, st, h, hok => by
      obtain ⟨c, hc⟩ := exOk_ok _ (by simpa using hok 0 (Nat.succ_pos _))
      have step : processFlatMR remote st (p :: rest) =
          processFlatMR remote
            (pushSuccessful { st with transferCalls := st.transferCalls + 1 }
              (TransferOutcome.liveSuccess (p.1 ++ "/" ++ p.2.name)
                (st.targetOrg ++ "/" ++ p.2.name) c)) rest := by
        rw [processFlatMR, transferMR_liveOk remote st p.2 p.1 c h hc]
        rfl
      rw [step, processFlatMR_liveOk remote rest
        (pushSuccessful { st with transferCalls := st.transferCalls + 1 }
          (TransferOutcome.liveSuccess (p.1 ++ "/" ++ p.2.name)
            (st.targetOrg ++ "/" ++ p.2.name) c)) h
        (by
          intro i hi
          have := hok (i + 1) (by simpa using Nat.succ_lt_succ hi)
          simpa [pushSuccessful, Nat.add_assoc, Nat.add_comm 1 i] using this)]
      simp [pushSuccessful, succList, statusAt, hc, flatName, Nat.add_assoc,
        Nat.add_comm 1 rest.length]

theorem processFlatMR_failAt (remote : Remote) (es : String × Nat) :
    ∀ (n : Nat) (pairs : List (String × Repo)) (st : MigratorState)
      (hn : n < pairs.length), st.dryRun = false → st.stopOnFailure = true →
      (∀ i, i < n → exOk (remote.transferResult (st.transferCalls + i)) = true) →
      remote.transferResult (st.transferCalls + n) = Except.error es →
      processFlatMR remote st pairs =
        ({ st with
            results := { st.results with
              successful :=
                st.results.successful ++ succList remote st.targetOrg st.transferCalls (pairs.take n)
            , failed :=
                st.results.failed ++ [TransferOutcome.liveFailure (flatName (pairs.get ⟨n, hn⟩)) es.1 es.2] }
          , transferCalls := st.transferCalls + n + 1 },
          some ("Migration failed for " ++ flatName (pairs.get ⟨n, hn⟩) ++ ": " ++ es.1))
  | 0, [], _, hn, _, _, _, _ => by cases hn
  | 0, p :: rest, st, hn, h, hs, _, herr => by
      have herr0 : remote.transferResult st.transferCalls = Except.error es := by
        simpa using herr
      rw [processFlatMR, transferMR_liveFail remote st p.2 p.1 es h hs herr0]
      simp [pushFailed, succList, flatName]
  | n + 1, [], _, hn, _, _, _, _ => by cases hn
  | n + 1, p :: rest, st, hn, h, hs, hok, herr => by
      obtain ⟨c, hc⟩ := exOk_ok _ (by simpa using hok 0 (Nat.succ_pos _))
      have step : processFlatMR remote st (p :: rest) =
          processFlatMR remote
            (pushSuccessful { st with transferCalls := st.transferCalls + 1 }
              (TransferOutcome.liveSuccess (p.1 ++ "/" ++ p.2.name)
                (st.targetOrg ++ "/" ++ p.2.name) c)) rest := by
        rw [processFlatMR, transferMR_liveOk remote st p.2 p.1 c h hc]
        rfl
      rw [step, processFlatMR_failAt remote es n rest
        (pushSuccessful { st with transferCalls := st.transferCalls + 1 }
          (TransferOutcome.liveSuccess (p.1 ++ "/" ++ p.2.name)
            (st.targetOrg ++ "/" ++ p.2.name) c))
        (Nat.lt_of_succ_lt_succ hn) h hs
        (by
          intro i hi
          have := hok (i + 1) (Nat.succ_lt_succ hi)
          simpa [pushSuccessful, Nat.add_assoc, Nat.add_comm 1 i] using this)
        (by
          have : st.transferCalls + 1 + n = st.transferCalls + (n + 1) := by omega
          simpa [pushSuccessful, this] using herr)]
      simp [pushSuccessful, succList, statusAt, hc, flatName]
      omega

theorem transferP0_shape (remote : Remote) (st : MigratorState) (repo : Repo)
    (org : String) :
    (∃ o : TransferOutcome, o.repoOf = org ++ "/" ++ repo.name ∧
      (((transferRepositoryP0 remote st repo org).1.results.successful
            = st.results.successful ++ [o]
          ∧ (transferRepositoryP0 remote st repo org).1.results.failed = st.results.failed)
        ∨ ((transferRepositoryP0 remote st repo org).1.results.successful
            = st.results.successful
          ∧ (transferRepositoryP0 remote st repo org).1.results.failed
            = st.results.failed ++ [o])))
    ∧ (transferRepositoryP0 remote st repo org).1.results.skipped = st.results.skipped := by
  by_cases hd : st.dryRun = true
  · rw [transferP0_dry remote st repo org hd]
    exact ⟨⟨TransferOutcome.dryRunSuccess (org ++ "/" ++ repo.name)
      (st.targetOrg ++ "/" ++ repo.name), rfl, Or.inl ⟨rfl, rfl⟩⟩, rfl⟩
  · have hd2 : st.dryRun = false := by simpa using hd
    cases hr : remote.transferResult st.transferCalls with
  | ok c =>
      rw [transferP0_liveOk remote st repo org c hd2 hr]
      exact ⟨⟨TransferOutcome.liveSuccess (org ++ "/" ++ repo.name)
        (st.targetOrg ++ "/" ++ repo.name) c, rfl, Or.inl ⟨rfl, rfl⟩⟩, rfl⟩
  | error es =>
      rw [transferP0_liveFail remote st repo org es hd2 hr]
      exact ⟨⟨TransferOutcome.liveFailure (org ++ "/" ++ repo.name) es.1 es.2,
        rfl, Or.inr ⟨rfl, rfl⟩⟩, rfl⟩

theorem transferMR_shape (remote : Remote) (st : MigratorState) (repo : Repo)
    (org : String) :
    (∃ o : TransferOutcome, o.repoOf = org ++ "/" ++ repo.name ∧
      (((transferRepositoryMR remote st repo org).1.results.successful
            = st.results.successful ++ [o]
          ∧ (transferRepositoryMR remote st repo org).1.results.failed = st.results.failed)
        ∨ ((transferRepositoryMR remote st repo org).1.results.successful
            = st.results.successful
          ∧ (transferRepositoryMR remote st repo org).1.results.failed
            = st.results.failed ++ [o])))
    ∧ (transferRepositoryMR remote st repo org).1.results.skipped = st.results.skipped := by
  by_cases hd : st.dryRun = true
  · rw [transferMR_dry remote st repo org hd]
    exact ⟨⟨TransferOutcome.dryRunSuccess (org ++ "/" ++ repo.name)
      (st.targetOrg ++ "/" ++ repo.name), rfl, Or.inl ⟨rfl, rfl⟩⟩, rfl⟩
  · have hd2 : st.dryRun = false := by simpa using hd
    cases hr : remote.transferResult st.transferCalls with
  | ok c =>
      rw [transferMR_liveOk remote st repo org c hd2 hr]
      exact ⟨⟨TransferOutcome.liveSuccess (org ++ "/" ++ repo.name)
        (st.targetOrg ++ "/" ++ repo.name) c, rfl, Or.inl ⟨rfl, rfl⟩⟩, rfl⟩
  | error es =>
      have hfst : (transferRepositoryMR remote st repo org).1
          = pushFailed { st with transferCalls := st.transferCalls + 1 }
            (TransferOutcome.liveFailure (org ++ "/" ++ repo.name) es.1 es.2) := by
        by_cases hs : st.stopOnFailure = true <;>
          simp [transferRepositoryMR, hd2, hr, pushFailed, hs]
      rw [hfst]
      exact ⟨⟨TransferOutcome.liveFailure (org ++ "/" ++ repo.name) es.1 es.2,
        rfl, Or.inr ⟨rfl, rfl⟩⟩, rfl⟩

theorem processFlatP0_skipped (remote : Remote) :
    ∀ (pairs : List (String × Repo)) (st : MigratorState),
      (processFlatP0 remote st pairs).results.skipped = st.results.skipped
  | [], _ => rfl
  | p :: rest, st => by
      rw [processFlatP0,
        processFlatP0_skipped remote rest (transferRepositoryP0 remote st p.2 p.1).1]
      exact (transferP0_shape remote st p.2 p.1).2

theorem processFlatP0_len (remote : Remote) :
    ∀ (pairs : List (String × Repo)) (st : MigratorState),
      (processFlatP0 remote st pairs).results.successful.length
          + (processFlatP0 remote st pairs).results.failed.length
        = st.results.successful.length + st.results.failed.length + pairs.length
  | [], _ => by simp [processFlatP0]
  | p :: rest, st => by
      rw [processFlatP0,
        processFlatP0_len remote rest (transferRepositoryP0 remote st p.2 p.1).1]
      obtain ⟨⟨o, _, hcase⟩, _⟩ := transferP0_shape remote st p.2 p.1
      rcases hcase with ⟨hsu, hf⟩ | ⟨hsu, hf⟩ <;> rw [hsu, hf] <;> simp <;> omega

theorem processFlatP0_multiset (remote : Remote) :
    ∀ (pairs : List (String × Repo)) (st : MigratorState),
      (((processFlatP0 remote st pairs).results.successful.map TransferOutcome.repoOf
            : Multiset String)
          + ((processFlatP0 remote st pairs).results.failed.map TransferOutcome.repoOf
            : Multiset String))
        = ((st.results.successful.map TransferOutcome.repoOf : Multiset String)
          + (st.results.failed.map TransferOutcome.repoOf : Multiset String))
          + (pairs.map flatName : Multiset String)
  | [], _ => by simp [processFlatP0]
  | p :: rest, st => by
      rw [processFlatP0,
        processFlatP0_multiset remote rest (transferRepositoryP0 remote st p.2 p.1).1]
      obtain ⟨⟨o, ho, hcase⟩, _⟩ := transferP0_shape remote st p.2 p.1
      have hflat : flatName p = o.repoOf := by rw [ho]; rfl
      rcases hcase with ⟨hsu, hf⟩ | ⟨hsu, hf⟩ <;>
        simp only [hsu, hf, List.map_append, List.map_cons, List.map_nil,
          ← Multiset.coe_add, Multiset.coe_singleton] <;>
        rw [hflat, ← Multiset.cons_coe, ← Multiset.singleton_add] <;>
        abel

theorem processFlatMR_skipped (remote : Remote) :
    ∀ (pairs : List (String × Repo)) (st : MigratorState),
      (processFlatMR remote st pairs).1.results.skipped = st.results.skipped
  | [], _ => rfl
  | p :: rest, st => by
      have hskip0 := (transferMR_shape remote st p.2 p.1).2
      rw [processFlatMR]
      rcases htr : transferRepositoryMR remote st p.2 p.1 with ⟨st1, r⟩
      rw [htr] at hskip0
      cases r with
  | error e => exact hskip0
  | ok ok =>
      show (if (!ok && !st1.dryRun) = true
          then (st1, some ("Migration stopped due to failure"))
          else processFlatMR remote st1 rest).1.results.skipped = st.results.skipped
      by_cases hcn : ((!ok && !st1.dryRun) = true)
      · rw [if_pos hcn]
        exact hskip0
      · rw [if_neg hcn, processFlatMR_skipped remote rest st1]
        exact hskip0

theorem migrateFromFile_skipped (remote : Remote) :
    ∀ (repos : List Repo) (st : MigratorState),
      (migrateFromFile remote st repos).results.skipped = st.results.skipped
  | [], _ => rfl
  | repo :: rest, st => by
      rw [migrateFromFile]
      cases extractOwner repo.url repo.sshUrl with
  | none => exact migrateFromFile_skipped remote rest st
  | some org =>
      rw [migrateFromFile_skipped remote rest (transferRepositoryP0 remote st repo org).1]
      exact (transferP0_shape remote st repo org).2

theorem migrateP0_skipped (remote : Remote) (st : MigratorState) (orgs : List String) :
    (migrateFromOrganizationsP0 remote st orgs).results.skipped = st.results.skipped := by
  rw [migrateP0_eq_processFlat]
  exact processFlatP0_skipped remote (flatRepos remote orgs) st

theorem migrateMR_skipped (remote : Remote) (st : MigratorState) (orgs : List String) :
    (migrateFromOrganizationsMR remote st orgs).1.results.skipped = st.results.skipped := by
  rw [migrateMR_eq_processFlat]
  exact processFlatMR_skipped remote (flatRepos remote orgs) st

/-- Concrete oracle used by the witnesses: organization A holds repositories
r1 and r2, any other listing fails; the first transfer request succeeds with
status 200 and every later one fails with message boom and status 422. -/
def remoteW : Remote :=
  { listResult := fun org =>
      if org = "A" then Except.ok ([{ name := "r1" }, { name := "r2" }])
      else Except.error ("no access")
  , transferResult := fun k =>
      if k = 0 then Except.ok 200 else Except.error (("boom", 422)) }

/-- Concrete validation oracle whose three remote calls all succeed with an
administrative role. -/
def vrOk : ValidationRemote :=
  { authUser := Except.ok ("me")
  , orgLookup := Except.ok ()
  , membershipRole := Except.ok ("admin") }

/-- Concrete validation oracle whose authentication call fails. -/
def vrAuthFail : ValidationRemote :=
  { authUser := Except.error ("bad credentials")
  , orgLookup := Except.ok ()
  , membershipRole := Except.ok ("admin") }

/-- Concrete remote on which every listing is empty and every transfer
succeeds. -/
def remoteQuiet : Remote :=
  { listResult := fun _ => Except.ok ([])
  , transferResult := fun _ => Except.ok 200 }

/-- Concrete oracle for the bucket-overlap counterexample: organization A holds
the single repository r; the first transfer succeeds, every later one fails. -/
def remoteC5 : Remote :=
  { listResult := fun org =>
      if org = "A" then Except.ok ([{ name := "r" }]) else Except.error ("x")
  , transferResult := fun k =>
      if k = 0 then Except.ok 200 else Except.error (("boom", 422)) }

/-- The final state of a live P0 run over the duplicated source-organization
list A, A against `remoteC5`: the same repository A/r is attempted twice, the
first attempt succeeding and the second failing. -/
def c5run : MigratorState :=
  migrateFromOrganizationsP0 remoteC5 (initState "T" ["A", "A"] false false) ["A", "A"]

/-- C1: with `config.dryRun = true`, `transferRepository` (both variants)
records exactly one Successful outcome carrying `dryRun = true` and performs no
remote transfer request; over a whole `migrateFromOrganizations` run the
successful bucket gains only dry-run entries, the failed and skipped buckets
are untouched, and the count of issued transfer network operations stays at its
initial value (zero from the constructor state). -/
theorem c1_dry_run_records_success_no_network (remote : Remote)
    (st : MigratorState) (repo : Repo) (org : String) (orgs : List String)
    (h : st.dryRun = true) :
    (transferRepositoryMR remote st repo org =
        (pushSuccessful st (TransferOutcome.dryRunSuccess (org ++ "/" ++ repo.name)
          (st.targetOrg ++ "/" ++ repo.name)), Except.ok true)
      ∧ transferRepositoryP0 remote st repo org =
        (pushSuccessful st (TransferOutcome.dryRunSuccess (org ++ "/" ++ repo.name)
          (st.targetOrg ++ "/" ++ repo.name)), Except.ok true))
    ∧ (migrateFromOrganizationsMR remote st orgs =
        ({ st with results := { st.results with
            successful :=
              st.results.successful ++ dryEntries st.targetOrg (flatRepos remote orgs) } },
          none))
    ∧ (migrateFromOrganizationsP0 remote st orgs =
        { st with results := { st.results with
            successful :=
              st.results.successful ++ dryEntries st.targetOrg (flatRepos remote orgs) } })
    ∧ (∀ o, o ∈ dryEntries st.targetOrg (flatRepos remote orgs) → o.isDry = true)
    ∧ ((migrateFromOrganizationsMR remote st orgs).1.transferCalls = st.transferCalls
      ∧ (migrateFromOrganizationsP0 remote st orgs).transferCalls = st.transferCalls) := by
  have hMR : migrateFromOrganizationsMR remote st orgs =
      ({ st with results := { st.results with
          successful :=
            st.results.successful ++ dryEntries st.targetOrg (flatRepos remote orgs) } },
        none) := by
    rw [migrateMR_eq_processFlat]
    exact processFlatMR_dry remote (flatRepos remote orgs) st h
  have hP0 : migrateFromOrganizationsP0 remote st orgs =
      { st with results := { st.results with
          successful :=
            st.results.successful ++ dryEntries st.targetOrg (flatRepos remote orgs) } } := by
    rw [migrateP0_eq_processFlat]
    exact processFlatP0_dry remote (flatRepos remote orgs) st h
  refine ⟨⟨transferMR_dry remote st repo org h, transferP0_dry remote st repo org h⟩,
    hMR, hP0, dryEntries_all_isDry st.targetOrg (flatRepos remote orgs), ?_, ?_⟩
  · rw [hMR]
  · rw [hP0]

/-- C1 witness: a concrete dry run over organization A with two repositories
issues zero transfer requests and records two dry-run successes. -/
theorem c1_witness :
    (initState "T" ["A"] true true).dryRun = true
    ∧ (migrateFromOrganizationsMR remoteW (initState "T" ["A"] true true) ["A"]).1.transferCalls
        = (initState "T" ["A"] true true).transferCalls
    ∧ (migrateFromOrganizationsP0 remoteW (initState "T" ["A"] true true) ["A"]).transferCalls
        = (initState "T" ["A"] true true).transferCalls :=
  ⟨rfl,
    (c1_dry_run_records_success_no_network remoteW (initState "T" ["A"] true true)
      { name := "r1" } "A" ["A"] rfl).2.2.2.2.1,
    (c1_dry_run_records_success_no_network remoteW (initState "T" ["A"] true true)
      { name := "r1" } "A" ["A"] rfl).2.2.2.2.2⟩

/-- C6: the summary success rate is `successful / (successful + failed) * 100`
whenever the denominator is nonzero (in particular 2 successful, 0 failed
yields 100), and in the zero-denominator case the computation always yields the
same single defined value, the IEEE NaN (modelled by `JsNum.nan`);
`generateReport` derives its `successRate` field by exactly this
computation. -/
theorem c6_success_rate (s f : Nat) (st : MigratorState) (hnz : s + f ≠ 0) :
    successRateCalc s f = JsNum.num ((s : ℚ) / ((s : ℚ) + (f : ℚ)) * 100)
    ∧ successRateCalc 2 0 = JsNum.num 100
    ∧ (∀ a b : Nat, a + b = 0 → successRateCalc a b = JsNum.nan)
    ∧ (generateReport st).successRate
        = successRateCalc st.results.successful.length st.results.failed.length := by
  refine ⟨by simp [successRateCalc, hnz], by simp [successRateCalc], ?_, rfl⟩
  intro a b hab
  simp [successRateCalc, hab]

/-- C6 witness: instantiation at 2 successful, 0 failed. -/
theorem c6_witness :
    (2 + 0 ≠ 0) ∧ successRateCalc 2 0 = JsNum.num 100 :=
  ⟨by decide,
    (c6_success_rate 2 0 (initState "T" [] true true) (by decide)).2.1⟩

/-- C7: each invocation of `transferRepository` (either variant) appends
exactly one outcome, whose repo field is the attempted repository identity, to
exactly one of the successful and failed buckets, leaves skipped untouched, and
grows the total bucket size by exactly one — in the dry-run, live-success and
live-failure cases alike. -/
theorem c7_exactly_one_outcome (remote : Remote) (st : MigratorState)
    (repo : Repo) (org : String) :
    ((∃ o : TransferOutcome, o.repoOf = org ++ "/" ++ repo.name ∧
        (((transferRepositoryMR remote st repo org).1.results.successful
              = st.results.successful ++ [o]
            ∧ (transferRepositoryMR remote st repo org).1.results.failed
              = st.results.failed)
          ∨ ((transferRepositoryMR remote st repo org).1.results.successful
              = st.results.successful
            ∧ (transferRepositoryMR remote st repo org).1.results.failed
              = st.results.failed ++ [o])))
      ∧ (transferRepositoryMR remote st repo org).1.results.skipped = st.results.skipped
      ∧ (transferRepositoryMR remote st repo org).1.results.successful.length
          + (transferRepositoryMR remote st repo org).1.results.failed.length
          + (transferRepositoryMR remote st repo org).1.results.skipped.length
        = st.results.successful.length + st.results.failed.length
          + st.results.skipped.length + 1)
    ∧ ((∃ o : TransferOutcome, o.repoOf = org ++ "/" ++ repo.name ∧
        (((transferRepositoryP0 remote st repo org).1.results.successful
              = st.results.successful ++ [o]
            ∧ (transferRepositoryP0 remote st repo org).1.results.failed
              = st.results.failed)
          ∨ ((transferRepositoryP0 remote st repo org).1.results.successful
              = st.results.successful
            ∧ (transferRepositoryP0 remote st repo org).1.results.failed
              = st.results.failed ++ [o])))
      ∧ (transferRepositoryP0 remote st repo org).1.results.skipped = st.results.skipped
      ∧ (transferRepositoryP0 remote st repo org).1.results.successful.length
          + (transferRepositoryP0 remote st repo org).1.results.failed.length
          + (transferRepositoryP0 remote st repo org).1.results.skipped.length
        = st.results.successful.length + st.results.failed.length
          + st.results.skipped.length + 1) := by
  obtain ⟨⟨oM, hoM, hcM⟩, hsM⟩ := transferMR_shape remote st repo org
  obtain ⟨⟨oP, hoP, hcP⟩, hsP⟩ := transferP0_shape remote st repo org
  refine ⟨⟨⟨oM, hoM, hcM⟩, hsM, ?_⟩, ⟨oP, hoP, hcP⟩, hsP, ?_⟩
  · rcases hcM with ⟨h1, h2⟩ | ⟨h1, h2⟩ <;> rw [h1, h2, hsM] <;> simp <;> omega
  · rcases hcP with ⟨h1, h2⟩ | ⟨h1, h2⟩ <;> rw [h1, h2, hsP] <;> simp <;> omega

/-- C8: `validateSetup` fails fatally on authentication failure and on an
unresolvable target organization; a failing membership-role query is downgraded
to a warning and validation succeeds; and every fatal validation failure comes
from one of the first two checks. -/
theorem c8_validation_gates (targetOrg : String) (vr : ValidationRemote)
    (e1 e2 e3 u : String) :
    (vr.authUser = Except.error e1 →
        validateSetup targetOrg vr = Except.error ("Authentication failed: " ++ e1))
    ∧ (vr.authUser = Except.ok u → vr.orgLookup = Except.error e2 →
        validateSetup targetOrg vr
          = Except.error ("Target organization " ++ targetOrg ++ " not found or no access"))
    ∧ (vr.authUser = Except.ok u → vr.orgLookup = Except.ok () →
        vr.membershipRole = Except.error e3 →
        validateSetup targetOrg vr
          = Except.ok (some ("Could not verify permissions for target org: " ++ e3)))
    ∧ (∀ err, validateSetup targetOrg vr = Except.error err →
        (∃ a, vr.authUser = Except.error a) ∨ (∃ b, vr.orgLookup = Except.error b)) := by
  refine ⟨?_, ?_, ?_, ?_⟩
  · intro ha
    simp [validateSetup, ha]
  · intro ha ho
    simp [validateSetup, ha, ho]
  · intro ha ho hm
    simp [validateSetup, ha, ho, hm]
  · intro err herr
    cases ha : vr.authUser with
  | error a => exact Or.inl ⟨a, rfl⟩
  | ok u2 =>
      cases ho : vr.orgLookup with
      | error b => exact Or.inr ⟨b, rfl⟩
      | ok uo =>
          exfalso
          rw [validateSetup, ha, ho] at herr
          cases hm : vr.membershipRole with
          | error e =>
              rw [hm] at herr
              simp at herr
          | ok role =>
              rw [hm] at herr
              by_cases hrole : (role = "admin" ∨ role = "owner") <;>
                simp [hrole] at herr

/-- Concrete validation oracle whose membership query fails for lack of
scope. -/
def vrScope : ValidationRemote :=
  { authUser := Except.ok ("me")
  , orgLookup := Except.ok ()
  , membershipRole := Except.error ("insufficient scope") }

/-- Concrete validation oracle reporting a verified non-administrative
role. -/
def vrMember : ValidationRemote :=
  { authUser := Except.ok ("me")
  , orgLookup := Except.ok ()
  , membershipRole := Except.ok ("member") }

/-- C8 witness: concrete instantiation of the downgraded membership check and
of the fatal authentication gate. -/
theorem c8_witness :
    validateSetup "T" vrScope
      = Except.ok (some ("Could not verify permissions for target org: insufficient scope"))
    ∧ validateSetup "T" vrAuthFail
      = Except.error ("Authentication failed: bad credentials") :=
  ⟨(c8_validation_gates "T" vrScope "x" "x" "insufficient scope" "me").2.2.1 rfl rfl rfl,
    (c8_validation_gates "T" vrAuthFail "bad credentials" "x" "x" "me").1 rfl⟩

/-- C9: when the membership query succeeds with a role that is neither admin
nor owner, the insufficient-permissions error raised inside the permission
block is caught by the same handler as a query failure: `validateSetup` still
succeeds, returning only the warning that wraps the internal error message. -/
theorem c9_denied_role_downgraded (targetOrg u role : String)
    (vr : ValidationRemote) (ha : vr.authUser = Except.ok u)
    (ho : vr.orgLookup = Except.ok ()) (hm : vr.membershipRole = Except.ok role)
    (h1 : role ≠ "admin") (h2 : role ≠ "owner") :
    validateSetup targetOrg vr
      = Except.ok (some ("Could not verify permissions for target org: "
          ++ ("Insufficient permissions for target org. Need admin/owner, have: " ++ role))) := by
  simp [validateSetup, ha, ho, hm, h1, h2]

/-- C9 witness: a verified member-level role still passes validation with a
warning. -/
theorem c9_witness :
    validateSetup "T" vrMember
      = Except.ok (some ("Could not verify permissions for target org: "
          ++ ("Insufficient permissions for target org. Need admin/owner, have: " ++ "member"))) :=
  c9_denied_role_downgraded "T" "me" "member" vrMember
    rfl rfl rfl (by decide) (by decide)

/-- C2: in a live run with `stopOnFailure = true` started from the constructor
state, if the first n transfer requests succeed and the n+1st fails while at
least n+1 repositories are discovered, then exactly the first n discovered
repositories are recorded as successful, exactly the n+1st is recorded as
failed, the skipped bucket stays empty (so exactly N = n+1 outcomes exist and
none for any later repository of any organization), and the scheduler aborts
by raising an exception. -/
theorem c2_fail_fast_records_exactly_n (remote : Remote) (st : MigratorState)
    (orgs : List String) (n : Nat) (es : String × Nat)
    (hd : st.dryRun = false) (hs : st.stopOnFailure = true)
    (hres : st.results = { successful := [], failed := [], skipped := [] })
    (hc : st.transferCalls = 0)
    (hn : n < (flatRepos remote orgs).length)
    (hok : ∀ i, i < n → exOk (remote.transferResult i) = true)
    (herr : remote.transferResult n = Except.error es) :
    ((migrateFromOrganizationsMR remote st orgs).1.results.successful.map
        TransferOutcome.repoOf
      = ((flatRepos remote orgs).take n).map flatName)
    ∧ (migrateFromOrganizationsMR remote st orgs).1.results.successful.length = n
    ∧ ((migrateFromOrganizationsMR remote st orgs).1.results.failed.map
        TransferOutcome.repoOf
      = [flatName ((flatRepos remote orgs).get ⟨n, hn⟩)])
    ∧ (migrateFromOrganizationsMR remote st orgs).1.results.skipped = []
    ∧ (migrateFromOrganizationsMR remote st orgs).2 ≠ none := by
  have hfail := processFlatMR_failAt remote es n (flatRepos remote orgs) st hn hd hs
    (by intro i hi; rw [hc, Nat.zero_add]; exact hok i hi)
    (by rw [hc, Nat.zero_add]; exact herr)
  rw [migrateMR_eq_processFlat, hfail]
  have hsu : st.results.successful = [] := by rw [hres]
  have hf : st.results.failed = [] := by rw [hres]
  have hsk : st.results.skipped = [] := by rw [hres]
  refine ⟨?_, ?_, ?_, ?_, ?_⟩
  · simp only [hsu, List.nil_append]
    exact succList_map_repoOf remote st.targetOrg st.transferCalls _
  · simp only [hsu, List.nil_append, succList_length]
    rw [List.length_take]
    omega
  · simp [hf, TransferOutcome.repoOf]
  · exact hsk
  · simp

/-- C2 witness: against `remoteW` (transfer 0 succeeds, transfer 1 fails) a
live fail-fast run over organization A with repositories r1, r2 records one
success and aborts. -/
theorem c2_witness :
    exOk (remoteW.transferResult 0) = true
    ∧ remoteW.transferResult 1 = Except.error (("boom", 422))
    ∧ (migrateFromOrganizationsMR remoteW (initState "T" ["A"] false true)
        ["A"]).1.results.successful.length = 1
    ∧ (migrateFromOrganizationsMR remoteW (initState "T" ["A"] false true)
        ["A"]).1.results.skipped = []
    ∧ (migrateFromOrganizationsMR remoteW (initState "T" ["A"] false true)
        ["A"]).2 ≠ none :=
  ⟨by decide, rfl,
    (c2_fail_fast_records_exactly_n remoteW (initState "T" ["A"] false true)
      ["A"] 1 ("boom", 422) rfl rfl rfl rfl (by decide)
      (by decide) rfl).2.1,
    (c2_fail_fast_records_exactly_n remoteW (initState "T" ["A"] false true)
      ["A"] 1 ("boom", 422) rfl rfl rfl rfl (by decide)
      (by decide) rfl).2.2.2.1,
    (c2_fail_fast_records_exactly_n remoteW (initState "T" ["A"] false true)
      ["A"] 1 ("boom", 422) rfl rfl rfl rfl (by decide)
      (by decide) rfl).2.2.2.2⟩

/-- C4: a failing repository-listing query yields the empty sequence rather
than an error, a leading organization with a failing listing leaves the run
state exactly as if that organization were absent, and over any organization
sequence the P0 orchestrator records exactly one outcome per discovered
repository — so every repository of each organization whose listing succeeds
is still processed. -/
theorem c4_listing_degradation (remote : Remote) (st : MigratorState)
    (org : String) (e : String) (rest orgs : List String)
    (hfail : remote.listResult org = Except.error e) :
    listRepositories remote org = []
    ∧ migrateFromOrganizationsP0 remote st (org :: rest)
        = migrateFromOrganizationsP0 remote st rest
    ∧ ((migrateFromOrganizationsP0 remote st orgs).results.successful.length
          + (migrateFromOrganizationsP0 remote st orgs).results.failed.length
        = st.results.successful.length + st.results.failed.length
          + (flatRepos remote orgs).length) := by
  have hlist : listRepositories remote org = [] := by
    simp [listRepositories, hfail]
  refine ⟨hlist, ?_, ?_⟩
  · rw [migrateFromOrganizationsP0, hlist]
    rfl
  · rw [migrateP0_eq_processFlat]
    exact processFlatP0_len remote (flatRepos remote orgs) st

/-- C4 witness: organization X's listing fails while organization A lists two
repositories; the run over X then A equals the run over A alone and records
exactly two outcomes. -/
theorem c4_witness :
    listRepositories remoteW "X" = []
    ∧ migrateFromOrganizationsP0 remoteW (initState "T" ["X", "A"] false false)
        ["X", "A"]
      = migrateFromOrganizationsP0 remoteW (initState "T" ["X", "A"] false false) ["A"]
    ∧ ((migrateFromOrganizationsP0 remoteW (initState "T" ["X", "A"] false false)
          ["X", "A"]).results.successful.length
        + (migrateFromOrganizationsP0 remoteW (initState "T" ["X", "A"] false false)
          ["X", "A"]).results.failed.length
      = 0 + 0 + (flatRepos remoteW ["X", "A"]).length) :=
  ⟨(c4_listing_degradation remoteW (initState "T" ["X", "A"] false false)
      "X" "no access" ["A"] ["X", "A"] rfl).1,
    (c4_listing_degradation remoteW (initState "T" ["X", "A"] false false)
      "X" "no access" ["A"] ["X", "A"] rfl).2.1,
    (c4_listing_degradation remoteW (initState "T" ["X", "A"] false false)
      "X" "no access" ["A"] ["X", "A"] rfl).2.2⟩

/-- C5 counterexample: the claim that the outcome buckets are always pairwise
disjoint by repository identity is false.  With source organizations A, A (a
duplicated entry of `SOURCE_ORGS`), one repository r in A, and a remote whose
first transfer succeeds while the second fails, the finalized run has the
identity A/r in both the successful and the failed bucket. -/
theorem c5_counterexample :
    ("A/r" ∈ c5run.results.successful.map TransferOutcome.repoOf)
    ∧ ("A/r" ∈ c5run.results.failed.map TransferOutcome.repoOf)
    ∧ (generateReport c5run).total
        = c5run.results.successful.length + c5run.results.failed.length
          + c5run.results.skipped.length := by
  refine ⟨by decide, by decide, rfl⟩

/-- C5 amended: the summary total always equals the sum of the three bucket
sizes; and whenever no repository identity is attempted more than once in a
run from the constructor state (the flattened discovery list has no duplicate
full names), the buckets are pairwise disjoint by repository identity. -/
theorem c5_total_and_disjoint_when_unique (remote : Remote)
    (st st2 : MigratorState) (orgs : List String)
    (hres : st.results = { successful := [], failed := [], skipped := [] })
    (hnd : ((flatRepos remote orgs).map flatName).Nodup) :
    ((generateReport st2).total
        = st2.results.successful.length + st2.results.failed.length
          + st2.results.skipped.length)
    ∧ (∀ x, x ∈ (migrateFromOrganizationsP0 remote st orgs).results.successful.map
          TransferOutcome.repoOf
        → x ∉ (migrateFromOrganizationsP0 remote st orgs).results.failed.map
          TransferOutcome.repoOf)
    ∧ ((migrateFromOrganizationsP0 remote st orgs).results.skipped = []) := by
  have hm := processFlatP0_multiset remote (flatRepos remote orgs) st
  rw [hres] at hm
  simp only [List.map_nil, Multiset.coe_nil, zero_add] at hm
  have hnd2 : (((flatRepos remote orgs).map flatName : List String) : Multiset String).Nodup :=
    Multiset.coe_nodup.mpr hnd
  rw [← hm] at hnd2
  have hdisj := (Multiset.nodup_add.mp hnd2).2.2
  refine ⟨rfl, ?_, ?_⟩
  · intro x hx hxf
    rw [migrateP0_eq_processFlat] at hx hxf
    exact Multiset.disjoint_left.mp hdisj (Multiset.mem_coe.mpr hx)
      (Multiset.mem_coe.mpr hxf)
  · rw [migrateP0_eq_processFlat, processFlatP0_skipped, hres]

/-- C5 witness: a live run over organization A with the two distinct
repositories r1, r2 has disjoint buckets. -/
theorem c5_witness :
    (((flatRepos remoteW ["A"]).map flatName).Nodup)
    ∧ (∀ x, x ∈ (migrateFromOrganizationsP0 remoteW
          (initState "T" ["A"] false false) ["A"]).results.successful.map
          TransferOutcome.repoOf
        → x ∉ (migrateFromOrganizationsP0 remoteW
          (initState "T" ["A"] false false) ["A"]).results.failed.map
          TransferOutcome.repoOf) :=
  ⟨by decide,
    (c5_total_and_disjoint_when_unique remoteW (initState "T" ["A"] false false)
      (initState "T" ["A"] false false) ["A"] rfl (by decide)).2.1⟩

theorem runP0_skipped (remote : Remote) (vr : ValidationRemote)
    (st : MigratorState) (fileRepos : Option (List Repo)) :
    (runP0 remote vr st fileRepos).finalState.results.skipped = st.results.skipped
    ∧ ∀ rep, (runP0 remote vr st fileRepos).report = some rep →
        rep.skipped = st.results.skipped.length := by
  rw [runP0.eq_def]
  cases hv : validateSetup st.targetOrg vr with
  | error e =>
      refine ⟨rfl, ?_⟩
      intro rep h
      cases h
  | ok w =>
      cases fileRepos with
  | some repos2 =>
      refine ⟨migrateFromFile_skipped remote repos2 st, ?_⟩
      intro rep h
      injection h with h2
      rw [← h2]
      show (migrateFromFile remote st repos2).results.skipped.length
        = st.results.skipped.length
      rw [migrateFromFile_skipped remote repos2 st]
  | none =>
      by_cases ho : 0 < st.sourceOrgs.length
      · simp only [if_pos ho]
        refine ⟨migrateP0_skipped remote st st.sourceOrgs, ?_⟩
        intro rep h
        injection h with h2
        rw [← h2]
        show (migrateFromOrganizationsP0 remote st st.sourceOrgs).results.skipped.length
          = st.results.skipped.length
        rw [migrateP0_skipped remote st st.sourceOrgs]
      · simp only [if_neg ho]
        refine ⟨trivial, ?_⟩
        intro rep h
        cases h

theorem runEU_report (remote : Remote) (vr : ValidationRemote) (st : MigratorState) :
    (runEU remote vr st).finalState.results.skipped = st.results.skipped
    ∧ (runEU remote vr st).report
        = some (generateReport (runEU remote vr st).finalState) := by
  rw [runEU.eq_def]
  cases hv : validateSetup st.targetOrg vr with
  | error e => exact ⟨rfl, rfl⟩
  | ok w =>
      by_cases ho : 0 < st.sourceOrgs.length
      · simp only [if_pos ho]
        rcases hmig : migrateFromOrganizationsMR remote st st.sourceOrgs with ⟨st1, r⟩
        have hskip : st1.results.skipped = st.results.skipped := by
          have := migrateMR_skipped remote st st.sourceOrgs
          rw [hmig] at this
          exact this
        cases r with
  | none => exact ⟨hskip, rfl⟩
  | some e => exact ⟨hskip, rfl⟩
      · simp only [if_neg ho]
        exact ⟨trivial, trivial⟩

/-- C10: nothing ever appends to the skipped bucket.  Both `transferRepository`
variants, `migrateFromFile` and both `migrateFromOrganizations` variants leave
the skipped bucket exactly as they found it; every `run` started from the
constructor state ends with an empty skipped bucket and, when a report is
produced, a skipped count of zero; and a file entry with no extractable owner
is omitted entirely — processing it is identical to processing the remaining
entries. -/
theorem c10_skipped_always_empty (remote : Remote) (vr : ValidationRemote)
    (st : MigratorState) (repo : Repo) (org targetOrg : String)
    (orgs : List String) (repos : List Repo) (fileRepos : Option (List Repo))
    (dry so : Bool) :
    ((transferRepositoryMR remote st repo org).1.results.skipped = st.results.skipped)
    ∧ ((transferRepositoryP0 remote st repo org).1.results.skipped = st.results.skipped)
    ∧ ((migrateFromFile remote st repos).results.skipped = st.results.skipped)
    ∧ ((migrateFromOrganizationsP0 remote st orgs).results.skipped = st.results.skipped)
    ∧ ((migrateFromOrganizationsMR remote st orgs).1.results.skipped = st.results.skipped)
    ∧ ((runP0 remote vr (initState targetOrg orgs dry so) fileRepos).finalState.results.skipped
        = [])
    ∧ (∀ rep, (runP0 remote vr (initState targetOrg orgs dry so) fileRepos).report = some rep
        → rep.skipped = 0)
    ∧ ((runEU remote vr (initState targetOrg orgs dry so)).finalState.results.skipped = [])
    ∧ (∀ rep, (runEU remote vr (initState targetOrg orgs dry so)).report = some rep
        → rep.skipped = 0)
    ∧ (extractOwner repo.url repo.sshUrl = none →
        migrateFromFile remote st (repo :: repos) = migrateFromFile remote st repos) := by
  have hrunP0 := runP0_skipped remote vr (initState targetOrg orgs dry so) fileRepos
  have hrunEU := runEU_report remote vr (initState targetOrg orgs dry so)
  refine ⟨(transferMR_shape remote st repo org).2,
    (transferP0_shape remote st repo org).2,
    migrateFromFile_skipped remote repos st,
    migrateP0_skipped remote st orgs,
    migrateMR_skipped remote st orgs,
    hrunP0.1, hrunP0.2, hrunEU.1, ?_, ?_⟩
  · intro rep h
    rw [hrunEU.2] at h
    injection h with h2
    rw [← h2]
    show (runEU remote vr (initState targetOrg orgs dry so)).finalState.results.skipped.length = 0
    rw [hrunEU.1]
    rfl
  · intro hnone
    rw [migrateFromFile, hnone]

/-- C10 witness: a concrete dry run from file and from organizations, plus a
concrete file entry with no extractable owner that is silently omitted. -/
theorem c10_witness :
    ((runP0 remoteW vrOk (initState "T" ["A"] true false) none).finalState.results.skipped = [])
    ∧ ((runEU remoteW vrOk (initState "T" ["A"] true false)).finalState.results.skipped = [])
    ∧ (extractOwner "x" "y" = none
      ∧ migrateFromFile remoteW (initState "T" ["A"] true false)
          [{ name := "r", url := "x", sshUrl := "y" }]
        = migrateFromFile remoteW (initState "T" ["A"] true false) []) :=
  ⟨(c10_skipped_always_empty remoteW vrOk (initState "T" ["A"] true false)
      { name := "r", url := "x", sshUrl := "y" } "A" "T" ["A"] [] none true false).2.2.2.2.2.1,
    (c10_skipped_always_empty remoteW vrOk (initState "T" ["A"] true false)
      { name := "r", url := "x", sshUrl := "y" } "A" "T" ["A"] [] none true false).2.2.2.2.2.2.2.1,
    by decide,
    (c10_skipped_always_empty remoteW vrOk (initState "T" ["A"] true false)
      { name := "r", url := "x", sshUrl := "y" } "A" "T" ["A"] [] none true false).2.2.2.2.2.2.2.2.2
      (by decide)⟩

/-- C3 (divergence witness): a fatal condition that unwinds to `run` does NOT
always finalize and persist the report.  In the P0 variant
(src/unnamed/part_000), both an authentication failure and the
missing-source-organizations error reach the catch handler, which exits with
status 1 without calling `generateReport` — the report is `none`.  The EU
variant (export-users.js) implements the claimed behaviour: its `run` always
produces the report of its final state, on every path. -/
theorem c3_p0_abort_skips_report :
    ((runP0 remoteQuiet vrAuthFail (initState "T" ["A"] false false) none).exitCode = 1
      ∧ (runP0 remoteQuiet vrAuthFail (initState "T" ["A"] false false) none).report = none)
    ∧ ((runP0 remoteQuiet vrOk (initState "T" [] false false) none).exitCode = 1
      ∧ (runP0 remoteQuiet vrOk (initState "T" [] false false) none).report = none)
    ∧ (∀ (remote : Remote) (vr : ValidationRemote) (st : MigratorState),
        (runEU remote vr st).report
          = some (generateReport (runEU remote vr st).finalState)) :=
  ⟨⟨rfl, rfl⟩, ⟨rfl, rfl⟩, fun remote vr st => (runEU_report remote vr st).2⟩
